import Mathlib

/-!
Verification of the data-visualiser frontend (src/frontend/src/app/page.tsx)
against its specification.

The file shallowly embeds the two components of the page:
* the Upload Controller (`Home` / `handleFileUpload`): React state
  `uploadResult` / `loading` / `error` and the async submit handler, modelled
  as explicit state transitions (`startStep` for the synchronous prefix of
  `handleFileUpload`, `resolveStep` for the continuation that runs when the
  network outcome arrives);
* the Suggestion Renderer (`ChartDisplay` / `renderChart`), modelled as a pure
  function from a suggestion and its positional color index to a description
  of the produced chart.
-/

namespace DataVisualiser

/-- A JSON value, as produced by `response.json()`.  Row records of
`ChartSuggestion.data` (typed `any[]` in the source) are also JSON values. -/
inductive Json where
  | null : Json
  | bool (b : Bool) : Json
  | num (n : Int) : Json
  | str (s : String) : Json
  | arr (elems : List Json) : Json
  | obj (fields : List (String × Json)) : Json

/-- JavaScript truthiness of a JSON value (used by `errorData.detail || ...`).
`null`, `false`, `0` and `""` are falsy; arrays and objects are truthy. -/
def jsTruthy : Json → Bool
  | .null => false
  | .bool b => b
  | .num n => n ≠ 0
  | .str s => s ≠ ""
  | .arr _ => true
  | .obj _ => true

/-- JavaScript string coercion `String(v)` of a JSON value, as applied by the
`Error` constructor to its message argument. -/
def jsString : Json → String
  | .null => "null"
  | .bool b => if b then "true" else "false"
  | .num n => toString n
  | .str s => s
  | .arr elems => String.intercalate "," (jsStringList elems)
  | .obj _ => "[object Object]"
where
  /-- String coercion of each element of a JSON array. -/
  jsStringList : List Json → List String
  | [] => []
  | x :: xs => jsString x :: jsStringList xs

/-- A thrown JavaScript value, as seen by the `catch (err)` clause: either an
`Error` instance carrying a message, or any other value. -/
inductive Thrown where
  | error (message : String) : Thrown
  | nonError : Thrown
deriving DecidableEq

/-- `err instanceof Error ? err.message : 'An error occurred'` (page.tsx:56). -/
def messageOf : Thrown → String
  | .error m => m
  | .nonError => "An error occurred"

/-- The `fetch` response as the controller consumes it: the `ok` flag and the
outcome of `response.json()` (which either yields a JSON value or throws). -/
structure HttpResponse where
  ok : Bool
  jsonResult : Except Thrown Json

/-- The environment of one `handleFileUpload` call: `fetch` either resolves
with a response or rejects with a thrown value. -/
abbrev SubmitEnv := Except Thrown HttpResponse

/-- JS property access `errorData.detail` (page.tsx:50): throws a `TypeError`
on `null`, yields the field (or `undefined`, here `none`) on objects, and
`undefined` on every other primitive. -/
def getDetail : Json → Except Thrown (Option Json)
  | .null => .error (.error "Cannot read properties of null (reading 'detail')")
  | .obj fields => .ok ((fields.find? (fun p => p.fst = "detail")).map Prod.snd)
  | _ => .ok none

/-- The `try` block of `handleFileUpload` (page.tsx:38-54): on a non-ok
response, parse the body and throw `new Error(errorData.detail || 'Upload
failed')`; on an ok response, the parsed body is the stored result.  `.error`
is a thrown value reaching the `catch`; `.ok` is the value passed to
`setUploadResult`. -/
def submitOutcome (env : SubmitEnv) : Except Thrown Json :=
  match env with
  | .error t => .error t
  | .ok response =>
    if !response.ok then
      match response.jsonResult with
      | .error t => .error t
      | .ok errorData =>
        match getDetail errorData with
        | .error t => .error t
        | .ok detail =>
          .error (.error (match detail with
            | some v => if jsTruthy v then jsString v else "Upload failed"
            | none => "Upload failed"))
    else
      response.jsonResult

/-- The React state owned by `Home` (page.tsx:29-31).  `uploadResult` holds the
raw parsed JSON body: the source performs no structural validation. -/
structure HomeState where
  uploadResult : Option Json
  loading : Bool
  error : Option String

/-- `useState` initial values: no result, not loading, no error. -/
def initialState : HomeState :=
  { uploadResult := none, loading := false, error := none }

/-- The synchronous prefix of `handleFileUpload` (page.tsx:34-36): set
`loading` and clear both `error` and `uploadResult` before the request. -/
def startStep (_st : HomeState) : HomeState :=
  { uploadResult := none, loading := true, error := none }

/-- The continuation of `handleFileUpload` after the awaited network outcome
(page.tsx:48-59): apply the result or the error, then `finally` clear
`loading`.  The source applies this unconditionally — there is no check that
the submission is still the latest one. -/
def resolveStep (st : HomeState) (env : SubmitEnv) : HomeState :=
  let st' :=
    match submitOutcome env with
    | .ok result => { st with uploadResult := some result }
    | .error t => { st with error := some (messageOf t) }
  { st' with loading := false }

/-- An observable event on the controller: a submission starting, or the
continuation of some earlier submission running with its network outcome. -/
inductive UploadEvent where
  | start : UploadEvent
  | settle (env : SubmitEnv) : UploadEvent

/-- One event applied to the controller state. -/
def uploadStep (st : HomeState) : UploadEvent → HomeState
  | .start => startStep st
  | .settle env => resolveStep st env

/-- Run the controller over a sequence of interleaved events. -/
def run (st : HomeState) (events : List UploadEvent) : HomeState :=
  events.foldl uploadStep st

/-- One complete, non-overlapping submission: start, then its resolution. -/
def seqStep (st : HomeState) (env : SubmitEnv) : HomeState :=
  resolveStep (startStep st) env

/-- Run a sequence of non-overlapping submissions from the initial state. -/
def seqRun (envs : List SubmitEnv) : HomeState :=
  envs.foldl seqStep initialState

/-! ### Suggestion Renderer (`ChartDisplay`) -/

/-- The `ChartSuggestion` interface (page.tsx:7-14).  `data` is `any[]` in the
source, so rows are arbitrary JSON values. -/
structure ChartSuggestion where
  type : String
  title : String
  x_axis : Option String
  y_axis : Option String
  explanation : String
  data : List Json

/-- JS `String.prototype.toLowerCase()` as called on `suggestion.type`
(page.tsx:194): lower-case the string character by character. -/
def toLowerCase (s : String) : String :=
  String.mk (s.data.map Char.toLower)

/-- The fixed six-color palette (page.tsx:184). -/
def COLORS : List String :=
  ["#0088FE", "#00C49F", "#FFBB28", "#FF8042", "#8884D8", "#82CA9D"]

/-- `COLORS[i % COLORS.length]`: the palette color for index `i`. -/
def colorAt (i : Nat) : String :=
  COLORS.getD (i % COLORS.length) ""

/-- The chart element produced by `renderChart`, keeping exactly the dynamic
attributes the source binds: the `dataKey` of each axis or series, the palette
colors, and the data array handed to the chart. -/
inductive RenderedChart where
  | barChart (xKey yKey : Option String) (fill : String) (rows : List Json)
  | lineChart (xKey yKey : Option String) (stroke : String) (rows : List Json)
  | pieChart (valueKey nameKey : String) (cellFills : List String)
      (rows : List Json)
  | scatterChart (xKey yKey : Option String) (fill : String) (rows : List Json)
  | areaChart (xKey yKey : Option String) (stroke fill : String)
      (rows : List Json)
  | unsupported (typeName : String)

/-- The `Cell` fills of the pie branch (page.tsx:257-259): one cell per row of
the suggestion's own data, colored by the row's position in that array. -/
def pieCells (rows : List Json) : List String :=
  rows.enum.map (fun p => colorAt p.fst)

/-- `renderChart` (page.tsx:187-319): dispatch on the lowercased `type`, bind
axes/series to the suggestion's declared fields and color the series by the
positional `index`; unknown types fall through to the placeholder carrying
the original (uncased) type string. -/
def renderChart (suggestion : ChartSuggestion) (index : Nat) : RenderedChart :=
  let t := toLowerCase suggestion.type
  if t = "bar" then
    .barChart suggestion.x_axis suggestion.y_axis (colorAt index)
      suggestion.data
  else if t = "line" then
    .lineChart suggestion.x_axis suggestion.y_axis (colorAt index)
      suggestion.data
  else if t = "pie" then
    .pieChart "value" "name" (pieCells suggestion.data) suggestion.data
  else if t = "scatter" then
    .scatterChart suggestion.x_axis suggestion.y_axis (colorAt index)
      suggestion.data
  else if t = "area" then
    .areaChart suggestion.x_axis suggestion.y_axis (colorAt index)
      (colorAt index) suggestion.data
  else
    .unsupported suggestion.type

/-- The closed set of recognized type tags (lowercased). -/
def supportedTypes : List String :=
  ["bar", "line", "pie", "scatter", "area"]

/-- The chart family a rendered element belongs to (`none` = the fallback
placeholder). -/
def familyOf : RenderedChart → Option String
  | .barChart _ _ _ _ => some "bar"
  | .lineChart _ _ _ _ => some "line"
  | .pieChart _ _ _ _ => some "pie"
  | .scatterChart _ _ _ _ => some "scatter"
  | .areaChart _ _ _ _ _ => some "area"
  | .unsupported _ => none

/-- How many data points a rendered element draws: the length of the data
array handed to the chart, and zero for the fallback placeholder. -/
def pointsOf : RenderedChart → Nat
  | .barChart _ _ _ rows => rows.length
  | .lineChart _ _ _ rows => rows.length
  | .pieChart _ _ _ rows => rows.length
  | .scatterChart _ _ _ rows => rows.length
  | .areaChart _ _ _ _ rows => rows.length
  | .unsupported _ => 0

/-- The full `ChartDisplay` card (page.tsx:321-357): title, the rendered chart
body, and the point-count footer showing `suggestion.data.length`. -/
structure ChartCard where
  title : String
  body : RenderedChart
  footerPoints : Nat

/-- The `ChartDisplay` component as a pure function of its props. -/
def chartDisplay (suggestion : ChartSuggestion) (index : Nat) : ChartCard :=
  { title := suggestion.title
    body := renderChart suggestion index
    footerPoints := suggestion.data.length }

/-! ### Spec-side predicates -/

/-- For each recognized (lowercased) type tag, the rendered chart is the
corresponding family with its series bound to the suggestion's declared
`x_axis`/`y_axis` (for pie, the fixed `value`/`name` fields), carrying the
suggestion's data unchanged. -/
def boundToDeclaredAxes (s : ChartSuggestion) (i : Nat) : Prop :=
  (toLowerCase s.type = "bar" →
    renderChart s i = .barChart s.x_axis s.y_axis (colorAt i) s.data) ∧
  (toLowerCase s.type = "line" →
    renderChart s i = .lineChart s.x_axis s.y_axis (colorAt i) s.data) ∧
  (toLowerCase s.type = "pie" →
    renderChart s i = .pieChart "value" "name" (pieCells s.data) s.data) ∧
  (toLowerCase s.type = "scatter" →
    renderChart s i = .scatterChart s.x_axis s.y_axis (colorAt i) s.data) ∧
  (toLowerCase s.type = "area" →
    renderChart s i = .areaChart s.x_axis s.y_axis (colorAt i) (colorAt i)
      s.data)

/-- How a 2xx response's body is routed: a body that fails JSON parsing lands
in the error state with the thrown value's message, and any successfully
parsed JSON value — whatever its structure — is stored as the result. -/
def parsedBodyRouting (st : HomeState) (resp : HttpResponse) : Prop :=
  (∀ t, resp.jsonResult = .error t →
    resolveStep st (.ok resp) =
      { st with error := some (messageOf t), loading := false }) ∧
  (∀ j, resp.jsonResult = .ok j →
    resolveStep st (.ok resp) =
      { st with uploadResult := some j, loading := false })

/-- How a non-2xx response is routed: the message is the body's `detail`
string when that field is present and truthy (non-empty); the generic
"Upload failed" when `detail` is absent or the empty string; and the parse
error's own message when the body fails to parse. -/
def failureRouting (st : HomeState) (resp : HttpResponse) : Prop :=
  (∀ errorData d, resp.jsonResult = .ok errorData →
    getDetail errorData = .ok (some (Json.str d)) → d ≠ "" →
    resolveStep st (.ok resp) =
      { st with error := some d, loading := false }) ∧
  (∀ errorData, resp.jsonResult = .ok errorData →
    getDetail errorData = .ok none →
    resolveStep st (.ok resp) =
      { st with error := some "Upload failed", loading := false }) ∧
  (∀ errorData, resp.jsonResult = .ok errorData →
    getDetail errorData = .ok (some (Json.str "")) →
    resolveStep st (.ok resp) =
      { st with error := some "Upload failed", loading := false }) ∧
  (∀ m, resp.jsonResult = .error (.error m) →
    resolveStep st (.ok resp) =
      { st with error := some m, loading := false })

/-- The `catch`/`finally` contract: `loading` is cleared in every outcome, and
a thrown value that is not an `Error` instance produces exactly the generic
message "An error occurred". -/
def catchBehavior (st : HomeState) (env : SubmitEnv) : Prop :=
  (resolveStep st env).loading = false ∧
  (submitOutcome env = .error .nonError →
    (resolveStep st env).error = some "An error occurred")

/-- At most one of the stored result and the stored error is non-null. -/
def exclusiveOutcome (st : HomeState) : Prop :=
  st.uploadResult = none ∨ st.error = none

/-- The per-phase write discipline of one submission: starting nulls both
slots, the success continuation writes only the result, and the failure
continuation writes only the error. -/
def submissionWriteSpec (st : HomeState) (env : SubmitEnv) : Prop :=
  startStep st = { uploadResult := none, loading := true, error := none } ∧
  (∀ j, submitOutcome env = .ok j →
    resolveStep st env =
      { st with uploadResult := some j, loading := false }) ∧
  (∀ t, submitOutcome env = .error t →
    resolveStep st env =
      { st with error := some (messageOf t), loading := false })

/-! ### Concrete inputs used by counterexamples and witnesses -/

/-- Network outcome of a first submission: 2xx with body `"first result"`. -/
def firstResponse : SubmitEnv :=
  .ok { ok := true, jsonResult := .ok (.str "first result") }

/-- Network outcome of a second submission: 2xx with body `"second result"`. -/
def secondResponse : SubmitEnv :=
  .ok { ok := true, jsonResult := .ok (.str "second result") }

/-- Two submissions in quick succession whose responses arrive in swapped
order: the first submission's response settles after the second's. -/
def staleTrace : List UploadEvent :=
  [.start, .start, .settle secondResponse, .settle firstResponse]

/-- Two overlapping submissions: the first resolves successfully after the
second has already started, then the second fails. -/
def overlapTrace : List UploadEvent :=
  [.start, .start,
   .settle (.ok { ok := true, jsonResult := .ok (.str "A") }),
   .settle (.error (.error "network down"))]

/-- A pie suggestion with a mixed-case tag and two data rows. -/
def pieExample : ChartSuggestion :=
  { type := "Pie", title := "T", x_axis := none, y_axis := none,
    explanation := "E", data := [Json.null, Json.null] }

/-- A bar suggestion with an upper-case tag and an empty data array. -/
def emptyBarExample : ChartSuggestion :=
  { type := "BAR", title := "T", x_axis := some "a", y_axis := some "b",
    explanation := "E", data := [] }

/-- A non-2xx response carrying `{"detail":"unsupported file type"}`. -/
def badFileResponse : HttpResponse :=
  { ok := false,
    jsonResult := .ok (.obj [("detail", .str "unsupported file type")]) }

/-- A 2xx response whose JSON body is the empty object — `chart_suggestions`
is structurally absent. -/
def emptyObjectResponse : HttpResponse :=
  { ok := true, jsonResult := .ok (.obj []) }

/-! ### Helper lemmas -/

/-- The palette has six entries, so color selection has period six. -/
theorem colorAt_add_six (i : Nat) : colorAt i = colorAt (i + 6) := by
  simp [colorAt, COLORS, Nat.add_mod_right]

/-- The pie cell fills are the palette colors indexed by slice position. -/
theorem pieCells_eq_range (rows : List Json) :
    pieCells rows = (List.range rows.length).map colorAt := by
  simp [pieCells, ← List.enum_map_fst, List.map_map, Function.comp]

/-- One non-overlapping submission always leaves at most one of the result
and the error slot filled, whatever the previous state was. -/
theorem seqStep_exclusive (st : HomeState) (env : SubmitEnv) :
    exclusiveOutcome (seqStep st env) := by
  cases h : submitOutcome env <;>
    simp [seqStep, startStep, resolveStep, h, exclusiveOutcome]

/-- Folding non-overlapping submissions preserves the exclusivity invariant. -/
theorem foldl_seqStep_exclusive :
    ∀ (envs : List SubmitEnv) (st : HomeState), exclusiveOutcome st →
      exclusiveOutcome (envs.foldl seqStep st)
  | [], _, h => h
  | e :: es, st, _ =>
    foldl_seqStep_exclusive es (seqStep st e) (seqStep_exclusive st e)

/-- The start phase nulls both slots; each resolution writes exactly one. -/
theorem submissionWriteSpec_holds (st : HomeState) (env : SubmitEnv) :
    submissionWriteSpec st env := by
  refine ⟨rfl, ?_, ?_⟩
  · intro j hj
    simp [resolveStep, hj]
  · intro t ht
    simp [resolveStep, ht]

/-! ### Claims -/

/-- C1 (code bug): the Upload Controller has no stale-response guard.  On the
spec's scenario — two submissions in quick succession with the first
submission's response arriving after the second's — the late response of the
superseded first submission is applied, so the stored result is the first
response's body, not the second's as the claim requires. -/
theorem stale_response_overwrites_newer :
    (run initialState staleTrace).uploadResult =
      some (Json.str "first result") ∧
    Json.str "first result" ≠ Json.str "second result" := by
  refine ⟨rfl, ?_⟩
  intro h
  injection h with h'
  exact absurd h' (by decide)

/-- C2 (counterexample): a 2xx response whose JSON body is the empty object —
`chart_suggestions` structurally absent — is not routed to the Failed state
as the claim demands: the raw body is stored as the result and the error slot
stays empty, i.e. the controller reaches Success. -/
theorem malformed_success_body_accepted :
    resolveStep (startStep initialState) (.ok emptyObjectResponse) =
      { uploadResult := some (Json.obj []), loading := false,
        error := none } :=
  rfl

/-- C2 (amended): on a 2xx response, only a body that fails JSON parsing
lands in the Failed state; any successfully parsed JSON value, regardless of
structure, is stored as the result and the controller reaches Success. -/
theorem success_body_routing (st : HomeState) (resp : HttpResponse)
    (hok : resp.ok = true) : parsedBodyRouting st resp := by
  constructor
  · intro t ht
    simp [resolveStep, submitOutcome, hok, ht]
  · intro j hj
    simp [resolveStep, submitOutcome, hok, hj]

/-- C2 (witness): the amended routing instantiated on the empty-object 2xx
response. -/
theorem success_body_routing_witness :
    parsedBodyRouting initialState emptyObjectResponse :=
  success_body_routing initialState emptyObjectResponse rfl

/-- C3: a suggestion whose lowercased type is outside the closed set renders
to the non-fatal placeholder carrying the original (uncased) type string —
and only such suggestions do; any type whose lowercasing lands in the set
(mixed-case variants included) renders to the family named by that lowercased
tag; and the footer reports `data.length` in every case. -/
theorem unsupported_type_fallback (s : ChartSuggestion) (i : Nat) :
    (renderChart s i = .unsupported s.type ↔
      toLowerCase s.type ∉ supportedTypes) ∧
    (toLowerCase s.type ∈ supportedTypes ↔
      familyOf (renderChart s i) = some (toLowerCase s.type)) ∧
    (chartDisplay s i).footerPoints = s.data.length := by
  by_cases h1 : toLowerCase s.type = "bar"
  · simp [renderChart, h1, supportedTypes, familyOf, chartDisplay]
  by_cases h2 : toLowerCase s.type = "line"
  · simp [renderChart, h1, h2, supportedTypes, familyOf, chartDisplay]
  by_cases h3 : toLowerCase s.type = "pie"
  · simp [renderChart, h1, h2, h3, supportedTypes, familyOf, chartDisplay]
  by_cases h4 : toLowerCase s.type = "scatter"
  · simp [renderChart, h1, h2, h3, h4, supportedTypes, familyOf, chartDisplay]
  by_cases h5 : toLowerCase s.type = "area"
  · simp [renderChart, h1, h2, h3, h4, h5, supportedTypes, familyOf,
      chartDisplay]
  · simp [renderChart, h1, h2, h3, h4, h5, supportedTypes, familyOf,
      chartDisplay]

/-- C4: each recognized (case-insensitive) type tag renders to the matching
chart family with the series bound to the suggestion's declared
`x_axis`/`y_axis` (for pie, the fixed `value`/`name` fields), the data array
passed through unchanged; rendering is a pure function, so the input
suggestion is not mutated. -/
theorem recognized_type_bindings (s : ChartSuggestion) (i : Nat) :
    boundToDeclaredAxes s i := by
  refine ⟨fun h => ?_, fun h => ?_, fun h => ?_, fun h => ?_, fun h => ?_⟩ <;>
    simp [renderChart, h]

/-- C5 (counterexample): a non-2xx response whose body carries a present but
empty `detail` string is routed to Failed with the generic "Upload failed"
message, not with the detail string itself as the claim states. -/
theorem empty_detail_gives_generic_message :
    resolveStep (startStep initialState)
      (.ok { ok := false, jsonResult := .ok (.obj [("detail", .str "")]) }) =
      { uploadResult := none, loading := false,
        error := some "Upload failed" } :=
  rfl

/-- C5 (amended): on a non-2xx response the controller reaches Failed with
the body's `detail` string when that field is present and non-empty, with the
generic "Upload failed" when `detail` is absent or empty, and with the parse
error's own message when the body fails to parse; the result slot is not
written, so no chart suggestions are rendered. -/
theorem failed_response_routing (st : HomeState) (resp : HttpResponse)
    (hok : resp.ok = false) : failureRouting st resp := by
  refine ⟨fun errorData d h1 h2 h3 => ?_, fun errorData h1 h2 => ?_,
    fun errorData h1 h2 => ?_, fun m h1 => ?_⟩ <;>
    simp [resolveStep, submitOutcome, hok, h1, *, jsTruthy, jsString,
      messageOf]

/-- C5 (witness): the amended routing instantiated on the spec's 400 response
with body detail "unsupported file type". -/
theorem failed_response_routing_witness :
    failureRouting initialState badFileResponse :=
  failed_response_routing initialState badFileResponse rfl

/-- C6: the palette has exactly six entries and selection is index mod six,
so color index i and i + 6 yield the identical color, and the whole rendering
of any suggestion — bar, line, scatter and area included — is unchanged when
the positional index grows by six. -/
theorem palette_period_six (s : ChartSuggestion) (i : Nat) :
    COLORS.length = 6 ∧ colorAt i = colorAt (i + 6) ∧
    renderChart s i = renderChart s (i + 6) := by
  refine ⟨rfl, colorAt_add_six i, ?_⟩
  unfold renderChart
  rw [colorAt_add_six i]

/-- C7: a pie suggestion's slice colors are selected by slice position within
its own data array (palette index = position mod palette size), not by the
suggestion's positional color index — so two pie suggestions with the same
data render identically at any two page positions. -/
theorem pie_slices_positionally_colored (s : ChartSuggestion) (i j : Nat)
    (h : toLowerCase s.type = "pie") :
    renderChart s i = .pieChart "value" "name" (pieCells s.data) s.data ∧
    renderChart s i = renderChart s j ∧
    pieCells s.data = (List.range s.data.length).map colorAt := by
  refine ⟨by simp [renderChart, h], by simp [renderChart, h],
    pieCells_eq_range s.data⟩

/-- C7 (witness): the pie coloring facts instantiated on a concrete
mixed-case pie suggestion at page positions 0 and 7. -/
theorem pie_slices_positionally_colored_witness :
    renderChart pieExample 0 =
      .pieChart "value" "name" (pieCells pieExample.data) pieExample.data ∧
    renderChart pieExample 0 = renderChart pieExample 7 ∧
    pieCells pieExample.data =
      (List.range pieExample.data.length).map colorAt :=
  pie_slices_positionally_colored pieExample 0 7 (by decide)

/-- C8: with an empty data array every variant — the five families and the
fallback — draws zero points, and the footer reports a point count of 0;
rendering is total, so no error is raised. -/
theorem empty_data_renders_zero_points (s : ChartSuggestion) (i : Nat)
    (h : s.data = []) :
    pointsOf (renderChart s i) = 0 ∧ (chartDisplay s i).footerPoints = 0 := by
  refine ⟨?_, by simp [chartDisplay, h]⟩
  simp only [renderChart, h]
  repeat' split
  all_goals simp [pointsOf, pieCells]

/-- C8 (witness): the zero-point facts instantiated on a concrete bar
suggestion with empty data. -/
theorem empty_data_renders_zero_points_witness :
    pointsOf (renderChart emptyBarExample 2) = 0 ∧
    (chartDisplay emptyBarExample 2).footerPoints = 0 :=
  empty_data_renders_zero_points emptyBarExample 2 rfl

/-- C9 (counterexample): with two overlapping submissions — the first
resolving successfully after the second has started, the second then failing
— the controller ends with both the stored result and the stored error
non-null, refuting the claimed invariant over arbitrary interleavings. -/
theorem overlapping_submissions_break_exclusivity :
    (run initialState overlapTrace).uploadResult = some (Json.str "A") ∧
    (run initialState overlapTrace).error = some "network down" :=
  ⟨rfl, rfl⟩

/-- C9 (amended): for every sequence of non-overlapping submissions (each
resolving before the next starts) at most one of the stored error and the
stored result is non-null, and the per-phase writes are as claimed: starting
a submission nulls both slots before the request, the success path writes
only the result, the failure path writes only the error. -/
theorem sequential_exclusive_outcome (envs : List SubmitEnv)
    (st : HomeState) (env : SubmitEnv) :
    exclusiveOutcome (seqRun envs) ∧ submissionWriteSpec st env :=
  ⟨foldl_seqStep_exclusive envs initialState (Or.inl rfl),
   submissionWriteSpec_holds st env⟩

/-- C10: a thrown value that is not an Error instance is surfaced as exactly
the generic message "An error occurred", and in every outcome the loading
flag is false once the submission completes. -/
theorem non_error_throw_generic_message (st : HomeState) (env : SubmitEnv) :
    catchBehavior st env := by
  constructor
  · cases h : submitOutcome env <;> simp [resolveStep, h]
  · intro h
    simp [resolveStep, h, messageOf]

end DataVisualiser
